import Mathlib

/-!
Verification development for the py-web-server user-registration backend.

The embedding mirrors the source layout:
* `hash_password` / `verify_password`  — src/app/utils/password.py
* `validate_username`, `validate_password_strength`, `UserResponse`
                                        — src/app/schemas/user.py
* `get_user_by_username`, `get_user_by_email`, `create_user`
                                        — src/app/repositories/user_repository.py
* `register_user`                       — src/app/services/user_service.py
* `signup`, `app_routes`                — src/app/routers/auth.py, src/app/main.py

The argon2 library is an external collaborator with a fixed interface; it is
modelled as an idealized salted hash: the produced hash string embeds the
algorithm header, the salt, and a digest that (in the ideal model) determines
the password exactly.  Database sessions are modelled as an explicit
`Session` value with committed rows and uncommitted (pending) rows;
IntegrityError and unexpected storage faults are explicit `Except` errors.
-/

/-! ## Credential hasher (src/app/utils/password.py, argon2 modelled) -/

/-- The fixed algorithm/parameter header that argon2 embeds in every hash
string (modelling `$argon2id$v=19$m=65536,t=3,p=4$`). -/
def argon2Header : List Char :=
  "$argon2id$v=19$m=65536,t=3,p=4$".data

/-- Consume an expected header from the front of a character list; `none`
when the input does not start with the header. -/
def dropHeader : List Char → List Char → Option (List Char)
  | [], l => some l
  | _ :: _, [] => none
  | h :: hs, c :: cs => if c = h then dropHeader hs cs else none

/-- Split a character list at its first dollar sign: `some (before, after)`,
or `none` when no dollar sign occurs. -/
def splitDollar : List Char → Option (List Char × List Char)
  | [] => none
  | c :: rest =>
    if c = '$' then some ([], rest)
    else match splitDollar rest with
      | some (a, b) => some (c :: a, b)
      | none => none

/-- Parse an argon2-format hash string into its salt and digest components.
Returns `none` for malformed input (wrong header or missing separator),
modelling argon2 raising `InvalidHashError`. -/
def parseHash (h : String) : Option (String × String) :=
  match dropHeader argon2Header h.data with
  | none => none
  | some rest =>
    match splitDollar rest with
    | none => none
    | some (s, d) => some (⟨s⟩, ⟨d⟩)

/-- `hash_password` from src/app/utils/password.py.  The argon2 hasher draws
a fresh random salt per call; the salt is passed explicitly here.  The
idealized digest determines the password exactly (real argon2 is
collision-resistant; the ideal model makes this an equality). -/
def hash_password (salt : String) (password : String) : String :=
  ⟨argon2Header ++ salt.data ++ '$' :: password.data⟩

/-- The error outcomes of argon2's `verify`: `VerifyMismatchError` for a
wrong password, `InvalidHashError` for a malformed or corrupted hash. -/
inductive Argon2Error
  | verifyMismatch
  | invalidHash
  deriving DecidableEq, Repr

/-- The raw `PasswordHasher.verify` call: succeeds exactly when the password
reproduces the digest under the parameters embedded in the hash string, and
otherwise signals one of the `Argon2Error` outcomes. -/
def argon2RawVerify (password_hash : String) (password : String) :
    Except Argon2Error Unit :=
  match parseHash password_hash with
  | none => .error .invalidHash
  | some (_, digest) =>
    if digest = password then .ok () else .error .verifyMismatch

/-- `verify_password` from src/app/utils/password.py: wraps the raw verify
call and collapses every error outcome (mismatch, invalid hash, anything
else) to the boolean `false`. -/
def verify_password (password_hash : String) (password : String) : Bool :=
  match argon2RawVerify password_hash password with
  | .ok _ => true
  | .error .verifyMismatch => false
  | .error .invalidHash => false

/-! ## Request validation (src/app/schemas/user.py) -/

/-- A character of the `Field` pattern class `[a-zA-Z0-9_-]` on the
`username` field of `UserCreate`. -/
def usernameChar (c : Char) : Bool :=
  c.isAlpha || c.isDigit || c = '_' || c = '-'

/-- The regex `^[a-zA-Z0-9_-]+$` of the `username` field: the string is
nonempty and every character is in the class. -/
def usernamePatternOk (v : String) : Bool :=
  !v.data.isEmpty && v.data.all usernameChar

/-- The `validate_username` field validator: the username must contain at
least one alphanumeric character (`any(c.isalnum() for c in v)`; Python's
`str.isalnum` agrees with `Char.isAlphanum` on the ASCII class the pattern
already enforces). -/
def validate_username (v : String) : Bool :=
  v.data.any Char.isAlphanum

/-- Acceptance of the `username` field of `UserCreate`: the `Field`
constraints (`min_length=3`, `max_length=50`, the pattern) together with the
`validate_username` validator. -/
def userCreateUsernameOk (v : String) : Bool :=
  decide (3 ≤ v.length) && decide (v.length ≤ 50) &&
    usernamePatternOk v && validate_username v

/-- The `validate_password_strength` field validator: at least one
uppercase letter, one lowercase letter, and one digit. -/
def validate_password_strength (v : String) : Bool :=
  v.data.any Char.isUpper && v.data.any Char.isLower && v.data.any Char.isDigit

/-- Acceptance of the `password` field of `UserCreate`: the `Field`
constraints (`min_length=8`, `max_length=100`) together with the
`validate_password_strength` validator. -/
def userCreatePasswordOk (v : String) : Bool :=
  decide (8 ≤ v.length) && decide (v.length ≤ 100) && validate_password_strength v

/-- The spec's wording of username validity, stated independently for the
refinement proof: 3 to 50 characters, charset `[A-Za-z0-9_-]`, at least one
alphanumeric character. -/
def specUsernameValid (v : String) : Prop :=
  3 ≤ v.length ∧ v.length ≤ 50 ∧
    (∀ c ∈ v.data, c.isAlpha = true ∨ c.isDigit = true ∨ c = '_' ∨ c = '-') ∧
    (∃ c ∈ v.data, c.isAlphanum = true)

/-- The spec's wording of password validity, stated independently for the
refinement proof: 8 to 100 characters, at least one uppercase letter, one
lowercase letter, one digit. -/
def specPasswordValid (v : String) : Prop :=
  8 ≤ v.length ∧ v.length ≤ 100 ∧
    (∃ c ∈ v.data, c.isUpper = true) ∧
    (∃ c ∈ v.data, c.isLower = true) ∧
    (∃ c ∈ v.data, c.isDigit = true)

/-- The validated payload of the `UserCreate` schema. -/
structure UserCreateData where
  username : String
  email : String
  password : String
  deriving DecidableEq, Repr

/-! ## Data model and store (src/app/models/user.py, repositories) -/

/-- A persisted row of the `users` table (src/app/models/user.py).
Timestamps are abstract ticks. -/
structure StoredUser where
  id : String
  username : String
  email : String
  password_hash : String
  created_at : Nat
  updated_at : Nat
  deriving DecidableEq, Repr

/-- The committed content of the `users` table. -/
abbrev DB := List StoredUser

/-- A SQLAlchemy session: committed rows plus uncommitted pending adds
(the open transaction state that `db.rollback()` discards). -/
structure Session where
  committed : DB
  pending : DB
  deriving DecidableEq, Repr

/-- Per-request generated values: the row id (`uuid4`), the creation tick
(`datetime.utcnow`), and the salt the argon2 hasher draws for this call. -/
structure Fresh where
  id : String
  now : Nat
  salt : String
  deriving DecidableEq, Repr

/-- `get_user_by_username` from src/app/repositories/user_repository.py:
point lookup by the unique `username` column. -/
def get_user_by_username (db : DB) (username : String) : Option StoredUser :=
  db.find? (fun u => u.username == username)

/-- `get_user_by_email` from src/app/repositories/user_repository.py:
point lookup by the unique `email` column. -/
def get_user_by_email (db : DB) (email : String) : Option StoredUser :=
  db.find? (fun u => u.email == email)

/-- The storage-layer error raised by `db.commit()` inside `create_user`:
an IntegrityError for a unique-constraint violation, or any other
unexpected exception carrying an internal message.  The failed session
(with its pending transaction state) is returned alongside. -/
inductive DbErr
  | integrity (constraint : String)
  | unexpected (msg : String)
  deriving DecidableEq, Repr

/-- `create_user` from src/app/repositories/user_repository.py: build the
row (ids and timestamps generated), `db.add` it to the pending state, then
`db.commit()`.  The commit enforces the unique constraints on username and
email against the committed rows and may also hit an unexpected storage
fault (`fault`); either failure leaves the transaction open (pending kept)
and surfaces as an exception. -/
def create_user (s : Session) (fault : Option String) (fresh : Fresh)
    (username email password_hash : String) :
    Except (DbErr × Session) (StoredUser × Session) :=
  let user : StoredUser :=
    ⟨fresh.id, username, email, password_hash, fresh.now, fresh.now⟩
  let s1 : Session := ⟨s.committed, s.pending ++ [user]⟩
  if (s1.committed.find? (fun u => u.username == username || u.email == email)).isSome then
    .error (.integrity "users.username OR users.email", s1)
  else
    match fault with
    | some msg => .error (.unexpected msg, s1)
    | none => .ok (user, ⟨s1.committed ++ s1.pending, []⟩)

/-! ## Registration service (src/app/services/user_service.py) -/

/-- The FastAPI `HTTPException` payload: status code and detail string. -/
structure HTTPError where
  status_code : Nat
  detail : String
  deriving DecidableEq, Repr

/-- Observable events of one `register_user` run, used to state ordering
properties (which steps ran before the function raised). -/
inductive Ev
  | lookupUsername
  | lookupEmail
  | hashPassword
  | createCall
  | rollback
  deriving DecidableEq, Repr

/-- `register_user` from src/app/services/user_service.py.

`db` is the committed table the pre-checks see; `interleaved` are rows other
requests commit in the window between the pre-checks and `create_user`
(the TOCTOU race the spec describes — empty when no race); `fault` injects
an unexpected storage error at commit.  The result is the HTTP outcome, the
session state after the request (rollback clears pending), and the event
trace. -/
def register_user (db interleaved : DB) (fault : Option String)
    (fresh : Fresh) (user_data : UserCreateData) :
    Except HTTPError StoredUser × Session × List Ev :=
  match get_user_by_username db user_data.username with
  | some _ =>
    (.error ⟨400, "Username already registered"⟩, ⟨db, []⟩, [.lookupUsername])
  | none =>
    match get_user_by_email db user_data.email with
    | some _ =>
      (.error ⟨400, "Email already registered"⟩, ⟨db, []⟩,
        [.lookupUsername, .lookupEmail])
    | none =>
      let password_hash := hash_password fresh.salt user_data.password
      match create_user ⟨db ++ interleaved, []⟩ fault fresh
          user_data.username user_data.email password_hash with
      | .ok (user, s2) =>
        (.ok user, s2, [.lookupUsername, .lookupEmail, .hashPassword, .createCall])
      | .error (.integrity _, sErr) =>
        (.error ⟨400, "Username or email already registered"⟩,
          ⟨sErr.committed, []⟩,
          [.lookupUsername, .lookupEmail, .hashPassword, .createCall, .rollback])
      | .error (.unexpected _, sErr) =>
        (.error ⟨500, "An error occurred while creating the user"⟩,
          ⟨sErr.committed, []⟩,
          [.lookupUsername, .lookupEmail, .hashPassword, .createCall, .rollback])

/-! ## Transport layer (src/app/routers/auth.py, src/app/main.py) -/

/-- The `UserResponse` schema of src/app/schemas/user.py: exactly the
fields id, username, email, created_at. -/
structure UserResponse where
  id : String
  username : String
  email : String
  created_at : Nat
  deriving DecidableEq, Repr

/-- `UserResponse.model_validate(user)`: build the response from the ORM
row via `from_attributes`. -/
def UserResponse.model_validate (u : StoredUser) : UserResponse :=
  ⟨u.id, u.username, u.email, u.created_at⟩

/-- JSON serialization of a `UserResponse`: the key/value pairs the
response body carries (values rendered as strings). -/
def serializeUserResponse (r : UserResponse) : List (String × String) :=
  [("id", r.id), ("username", r.username), ("email", r.email),
   ("created_at", toString r.created_at)]

/-- The `signup` route handler of src/app/routers/auth.py: run
`register_user` on the already-validated payload and serialize the created
user through `UserResponse.model_validate`. -/
def signup (db interleaved : DB) (fault : Option String) (fresh : Fresh)
    (user_data : UserCreateData) : Except HTTPError UserResponse × Session :=
  let r := register_user db interleaved fault fresh user_data
  (r.1.map UserResponse.model_validate, r.2.1)

/-- A registered HTTP route: method, path, and success status code. -/
structure Route where
  method : String
  path : String
  status_code : Nat
  deriving DecidableEq, Repr

/-- The routes defined on the auth `APIRouter` in src/app/routers/auth.py:
`POST /signup` with success status 201 (it would serve `/auth/signup` once
included with prefix `/auth`). -/
def authRouterRoutes : List Route :=
  [⟨"POST", "/signup", 201⟩]

/-- The routes registered on the FastAPI app in src/app/main.py: only
`GET /health`.  The auth router registration is left as a commented-out
example ("Router registration will be added here as we build features"),
so no auth route is included in the app. -/
def appRoutes : List Route :=
  [⟨"GET", "/health", 200⟩]

/-! ## Helper lemmas about the hash format -/

theorem dropHeader_append (l rest : List Char) :
    dropHeader l (l ++ rest) = some rest := by
  induction l with
  | nil => rfl
  | cons c cs ih => simp [dropHeader, ih]

theorem splitDollar_append (a b : List Char) (ha : '$' ∉ a) :
    splitDollar (a ++ '$' :: b) = some (a, b) := by
  induction a with
  | nil => simp [splitDollar]
  | cons c cs ih =>
    have hc : ¬c = '$' := fun h => ha (by simp [h])
    have hcs : '$' ∉ cs := fun h => ha (List.mem_cons_of_mem _ h)
    simp [splitDollar, hc, ih hcs]

theorem parseHash_hash_password (salt pw : String) (hs : '$' ∉ salt.data) :
    parseHash (hash_password salt pw) = some (salt, pw) := by
  have h1 : (hash_password salt pw).data
      = argon2Header ++ (salt.data ++ '$' :: pw.data) := by
    simp [hash_password]
  simp [parseHash, h1, dropHeader_append, splitDollar_append _ _ hs]

/-- Claim C4: for every password within the valid length bounds (8 to 100
characters), hashing then verifying with the same password yields `true`,
and verifying with any different password yields `false` (in the idealized
collision-free model of argon2; the salt is the one the hasher drew, which
never contains the `$` separator). -/
theorem hash_verify_roundtrip (salt p p2 : String) (hsalt : '$' ∉ salt.data)
    (_hlen : 8 ≤ p.length ∧ p.length ≤ 100) (hne : p2 ≠ p) :
    verify_password (hash_password salt p) p = true ∧
    verify_password (hash_password salt p) p2 = false := by
  have hp := parseHash_hash_password salt p hsalt
  constructor
  · simp [verify_password, argon2RawVerify, hp]
  · simp [verify_password, argon2RawVerify, hp, Ne.symm hne]

/-- Claim C4 witness at a concrete salt and password pair. -/
theorem hash_verify_roundtrip_witness :
    verify_password (hash_password "c2FsdA" "Password1") "Password1" = true ∧
    verify_password (hash_password "c2FsdA" "Password1") "Password2" = false :=
  hash_verify_roundtrip "c2FsdA" "Password1" "Password2"
    (by decide) (by decide) (by decide)

/-- Claim C5: `verify_password` is a total boolean function: it returns
`true` exactly when the password reproduces the digest embedded in the hash
string, it returns `false` on a malformed hash (parse failure), and every
error outcome of the underlying argon2 verify call (mismatch or invalid
hash) collapses to `false` — no error propagates to the caller. -/
theorem verify_password_total (h p : String) :
    (verify_password h p = true ↔ (∃ s, parseHash h = some (s, p))) ∧
    (parseHash h = none → verify_password h p = false) ∧
    (∀ e, argon2RawVerify h p = .error e → verify_password h p = false) := by
  refine ⟨?_, ?_, ?_⟩
  · cases hp : parseHash h with
    | none => simp [verify_password, argon2RawVerify, hp]
    | some sd =>
      obtain ⟨s, d⟩ := sd
      by_cases hd : d = p
      · subst hd
        simp only [verify_password, argon2RawVerify, hp, if_pos rfl]
        exact ⟨fun _ => ⟨s, rfl⟩, fun _ => rfl⟩
      · simp [verify_password, argon2RawVerify, hp, hd]
  · intro hp
    simp [verify_password, argon2RawVerify, hp]
  · intro e he
    cases e <;> simp [verify_password, he]

/-- Claim C5 witness: a string without the argon2 header is rejected with
`false`, not an exception. -/
theorem verify_password_total_witness :
    verify_password "not-an-argon2-hash" "Password1" = false :=
  (verify_password_total "not-an-argon2-hash" "Password1").2.1 rfl

/-- Claim C6: two calls of `hash_password` on the same password with the
two distinct salts the hasher drew produce different hash strings, and
both strings verify successfully against the password. -/
theorem hash_password_salted (s1 s2 p : String) (h1 : '$' ∉ s1.data)
    (h2 : '$' ∉ s2.data) (hne : s1 ≠ s2) :
    hash_password s1 p ≠ hash_password s2 p ∧
    verify_password (hash_password s1 p) p = true ∧
    verify_password (hash_password s2 p) p = true := by
  have e1 := parseHash_hash_password s1 p h1
  have e2 := parseHash_hash_password s2 p h2
  refine ⟨?_, ?_, ?_⟩
  · intro heq
    rw [heq, e2] at e1
    exact hne (by injection e1 with h; exact (Prod.mk.injEq _ _ _ _ |>.mp h).1.symm)
  · simp [verify_password, argon2RawVerify, e1]
  · simp [verify_password, argon2RawVerify, e2]

/-- Claim C6 witness at two concrete distinct salts. -/
theorem hash_password_salted_witness :
    hash_password "YWFh" "Password1" ≠ hash_password "YmJi" "Password1" ∧
    verify_password (hash_password "YWFh" "Password1") "Password1" = true ∧
    verify_password (hash_password "YmJi" "Password1") "Password1" = true :=
  hash_password_salted "YWFh" "YmJi" "Password1" (by decide) (by decide) (by decide)

/-! ## Validation refinement lemmas -/

theorem string_length_data (v : String) : v.length = v.data.length := rfl

theorem userCreateUsernameOk_iff (v : String) :
    userCreateUsernameOk v = true ↔
      3 ≤ v.length ∧ v.length ≤ 50 ∧
        (∀ c ∈ v.data, usernameChar c = true) ∧
        (∃ c ∈ v.data, c.isAlphanum = true) := by
  unfold userCreateUsernameOk usernamePatternOk validate_username
  simp only [Bool.and_eq_true, decide_eq_true_eq, Bool.not_eq_true',
    List.all_eq_true, List.any_eq_true]
  constructor
  · rintro ⟨⟨⟨h1, h2⟩, _hne, hall⟩, hany⟩
    exact ⟨h1, h2, hall, hany⟩
  · rintro ⟨h1, h2, hall, hany⟩
    refine ⟨⟨⟨h1, h2⟩, ?_, hall⟩, hany⟩
    cases hd : v.data with
    | nil =>
      exfalso
      rw [string_length_data, hd] at h1
      simp at h1
    | cons a l => simp [List.isEmpty]

/-- Claim C7: a username passes the `UserCreate` validation exactly when it
is 3 to 50 characters long, every character is in `[A-Za-z0-9_-]`, and at
least one character is alphanumeric; the spec's concrete examples behave as
stated ("ab" and "---" rejected, "abc" accepted). -/
theorem username_validation_correct :
    (∀ v : String, userCreateUsernameOk v = true ↔ specUsernameValid v) ∧
    userCreateUsernameOk "ab" = false ∧
    userCreateUsernameOk "---" = false ∧
    userCreateUsernameOk "abc" = true := by
  refine ⟨fun v => ?_, by decide, by decide, by decide⟩
  rw [userCreateUsernameOk_iff]
  unfold specUsernameValid usernameChar
  simp [Bool.or_eq_true, decide_eq_true_eq, or_assoc]

/-- Claim C7 witness: the documented example username is accepted. -/
theorem username_validation_correct_witness :
    userCreateUsernameOk "john_doe" = true :=
  (username_validation_correct.1 "john_doe").mpr (by unfold specUsernameValid; decide)

/-- Claim C8: a password passes the `UserCreate` validation exactly when it
is 8 to 100 characters long and contains at least one uppercase letter, one
lowercase letter, and one digit; the spec's concrete examples behave as
stated ("short1A", "alllowercase1", "NoDigitsHere" rejected,
"ValidPass123" accepted). -/
theorem password_validation_correct :
    (∀ v : String, userCreatePasswordOk v = true ↔ specPasswordValid v) ∧
    userCreatePasswordOk "short1A" = false ∧
    userCreatePasswordOk "alllowercase1" = false ∧
    userCreatePasswordOk "NoDigitsHere" = false ∧
    userCreatePasswordOk "ValidPass123" = true := by
  refine ⟨fun v => ?_, by decide, by decide, by decide, by decide⟩
  unfold userCreatePasswordOk validate_password_strength specPasswordValid
  simp [Bool.and_eq_true, decide_eq_true_eq, List.any_eq_true, and_assoc]

/-- Claim C8 witness: the documented example password is accepted. -/
theorem password_validation_correct_witness :
    userCreatePasswordOk "SecurePass123" = true :=
  (password_validation_correct.1 "SecurePass123").mpr (by unfold specPasswordValid; decide)

/-! ## Sample data for witnesses -/

/-- The documented example registration payload. -/
def sampleUD : UserCreateData :=
  ⟨"john_doe", "john@example.com", "SecurePass123"⟩

/-- Concrete generated values for one request. -/
def sampleFresh : Fresh := ⟨"id-1", 0, "c2FsdA"⟩

/-- An existing row that collides with `sampleUD` on the username. -/
def sampleUser : StoredUser :=
  ⟨"id-9", "john_doe", "jane@example.com", "stored-hash", 0, 0⟩

/-- A row committed by a racing request in the TOCTOU window. -/
def raceUser : StoredUser :=
  ⟨"id-0", "john_doe", "other@example.com", "race-hash", 0, 0⟩

/-- The response produced by a successful signup with `sampleUD` and
`sampleFresh` on an empty table. -/
def sampleResponse : UserResponse :=
  ⟨"id-1", "john_doe", "john@example.com", 0⟩

/-! ## Registration-flow claims -/

/-- Claim C1: `register_user` first looks up the username and, when a user
exists, fails with 400 "Username already registered" without ever looking
up the email; otherwise it looks up the email and, when a user exists,
fails with 400 "Email already registered"; only when both lookups return
nothing does the run reach the hashing step and the create call. -/
theorem register_user_check_order (db interleaved : DB) (fault : Option String)
    (fresh : Fresh) (ud : UserCreateData) :
    (∀ u, get_user_by_username db ud.username = some u →
      (register_user db interleaved fault fresh ud).1 =
          .error ⟨400, "Username already registered"⟩ ∧
        (register_user db interleaved fault fresh ud).2.2 = [Ev.lookupUsername]) ∧
    (get_user_by_username db ud.username = none →
      ∀ u, get_user_by_email db ud.email = some u →
      (register_user db interleaved fault fresh ud).1 =
          .error ⟨400, "Email already registered"⟩ ∧
        (register_user db interleaved fault fresh ud).2.2 =
          [Ev.lookupUsername, Ev.lookupEmail]) ∧
    (get_user_by_username db ud.username = none →
      get_user_by_email db ud.email = none →
      Ev.hashPassword ∈ (register_user db interleaved fault fresh ud).2.2 ∧
      Ev.createCall ∈ (register_user db interleaved fault fresh ud).2.2) := by
  refine ⟨?_, ?_, ?_⟩
  · intro u hu
    simp [register_user, hu]
  · intro hn u he
    simp [register_user, hn, he]
  · intro hn he
    cases hc : create_user ⟨db ++ interleaved, []⟩ fault fresh ud.username ud.email
        (hash_password fresh.salt ud.password) with
    | ok v => simp [register_user, hn, he, hc]
    | error v =>
      obtain ⟨e, sErr⟩ := v
      cases e <;> simp [register_user, hn, he, hc]

/-- Claim C1 witness: on a table already holding the username, the run
fails with the username message after only the username lookup. -/
theorem register_user_check_order_witness :
    (register_user [sampleUser] [] none sampleFresh sampleUD).1 =
      .error ⟨400, "Username already registered"⟩ ∧
    (register_user [sampleUser] [] none sampleFresh sampleUD).2.2 =
      [Ev.lookupUsername] :=
  (register_user_check_order [sampleUser] [] none sampleFresh sampleUD).1
    sampleUser (by decide)

/-- Claim C2: when both pre-checks pass but `create_user` raises, the
request fails as the exception handlers prescribe — an IntegrityError
(a row with the username or email is already committed at create time)
becomes 400 "Username or email already registered", any other storage
error becomes 500 "An error occurred while creating the user" for every
internal message `msg` (so no internal detail leaks) — and in both cases
the session is rolled back: committed rows unchanged, pending cleared. -/
theorem register_user_create_failure (db interleaved : DB) (fault : Option String)
    (fresh : Fresh) (ud : UserCreateData)
    (h1 : get_user_by_username db ud.username = none)
    (h2 : get_user_by_email db ud.email = none) :
    (((db ++ interleaved).find?
        (fun u => u.username == ud.username || u.email == ud.email)).isSome = true →
      (register_user db interleaved fault fresh ud).1 =
          .error ⟨400, "Username or email already registered"⟩ ∧
        (register_user db interleaved fault fresh ud).2.1 = ⟨db ++ interleaved, []⟩) ∧
    (∀ msg, ((db ++ interleaved).find?
        (fun u => u.username == ud.username || u.email == ud.email)).isSome = false →
      fault = some msg →
      (register_user db interleaved fault fresh ud).1 =
          .error ⟨500, "An error occurred while creating the user"⟩ ∧
        (register_user db interleaved fault fresh ud).2.1 = ⟨db ++ interleaved, []⟩) := by
  constructor
  · intro hdup
    simp only [register_user, h1, h2, create_user, hdup]
    simp
  · intro msg hnodup hfault
    simp only [register_user, h1, h2, create_user, hnodup, hfault]
    simp

/-- Claim C2 witness: a racing commit of the same username between the
pre-checks and the create call yields the generic 400 and leaves the
committed rows exactly as the race left them, with no pending state. -/
theorem register_user_create_failure_witness :
    (register_user [] [raceUser] none sampleFresh sampleUD).1 =
      .error ⟨400, "Username or email already registered"⟩ ∧
    (register_user [] [raceUser] none sampleFresh sampleUD).2.1 =
      ⟨[raceUser], []⟩ :=
  (register_user_create_failure [] [raceUser] none sampleFresh sampleUD
    rfl rfl).1 (by decide)

/-- Claim C10: whenever a pre-check detects the duplicate (username found,
or username free but email found), `register_user` raises before the
hashing step and before any create call — neither event is in the trace —
and the session it leaves holds exactly the original committed rows with
nothing pending. -/
theorem register_user_precheck_no_effects (db interleaved : DB)
    (fault : Option String) (fresh : Fresh) (ud : UserCreateData)
    (h : (get_user_by_username db ud.username).isSome = true ∨
      (get_user_by_username db ud.username = none ∧
        (get_user_by_email db ud.email).isSome = true)) :
    Ev.hashPassword ∉ (register_user db interleaved fault fresh ud).2.2 ∧
    Ev.createCall ∉ (register_user db interleaved fault fresh ud).2.2 ∧
    (register_user db interleaved fault fresh ud).2.1 = ⟨db, []⟩ := by
  rcases h with h | ⟨h1, h2⟩
  · cases hu : get_user_by_username db ud.username with
    | none => rw [hu] at h; simp at h
    | some u => simp [register_user, hu]
  · cases he : get_user_by_email db ud.email with
    | none => rw [he] at h2; simp at h2
    | some u => simp [register_user, h1, he]

/-- Claim C10 witness: a duplicate-username request hashes nothing, calls
no create, and leaves the table untouched. -/
theorem register_user_precheck_no_effects_witness :
    Ev.hashPassword ∉ (register_user [sampleUser] [] none sampleFresh sampleUD).2.2 ∧
    Ev.createCall ∉ (register_user [sampleUser] [] none sampleFresh sampleUD).2.2 ∧
    (register_user [sampleUser] [] none sampleFresh sampleUD).2.1 =
      ⟨[sampleUser], []⟩ :=
  register_user_precheck_no_effects [sampleUser] [] none sampleFresh sampleUD
    (Or.inl (by decide))

/-! ## Transport claims -/

/-- Claim C9: a successful signup response serializes exactly the keys id,
username, email, created_at — never a password or password_hash key — and
its value is `UserResponse.model_validate` of the created row, which drops
the stored password hash. -/
theorem signup_response_fields (db interleaved : DB) (fault : Option String)
    (fresh : Fresh) (ud : UserCreateData) (r : UserResponse)
    (h : (signup db interleaved fault fresh ud).1 = .ok r) :
    (serializeUserResponse r).map Prod.fst =
      ["id", "username", "email", "created_at"] ∧
    "password" ∉ (serializeUserResponse r).map Prod.fst ∧
    "password_hash" ∉ (serializeUserResponse r).map Prod.fst ∧
    (∀ u, (register_user db interleaved fault fresh ud).1 = Except.ok u →
      r = UserResponse.model_validate u) := by
  refine ⟨rfl, ?_, ?_, ?_⟩
  · show ("password" : String) ∉ ["id", "username", "email", "created_at"]
    decide
  · show ("password_hash" : String) ∉ ["id", "username", "email", "created_at"]
    decide
  · intro u hu
    simp [signup, hu, Except.map] at h
    exact h.symm

/-- Claim C9 witness: a successful concrete signup carries exactly the four
documented keys. -/
theorem signup_response_fields_witness :
    (serializeUserResponse sampleResponse).map Prod.fst =
      ["id", "username", "email", "created_at"] :=
  (signup_response_fields [] [] none sampleFresh sampleUD sampleResponse rfl).1

/-- Claim C3 (code bug in src/app/main.py): the auth router defines
POST /signup with success status 201, but the app never includes that
router — the registration line is left as a commented-out example — so the
app's route table holds only GET /health and no POST /auth/signup (nor
POST /signup) route exists on the app. -/
theorem signup_route_not_registered :
    appRoutes.filter (fun r => r.method == "POST" && r.path == "/auth/signup") = [] ∧
    appRoutes.filter (fun r => r.method == "POST" && r.path == "/signup") = [] ∧
    authRouterRoutes = [⟨"POST", "/signup", 201⟩] ∧
    appRoutes = [⟨"GET", "/health", 200⟩] := by
  refine ⟨by decide, by decide, rfl, rfl⟩
